import Mathlib

/-
  Verification development for the hashprice-dashboard repository.

  The repository contains two near-duplicate implementations of a
  36-month Bitcoin-mining economics model:
  - `src/src/App.tsx` (the current implementation, embedded in namespace
    `Hashprice`), and
  - `src/unnamed/part_002` (the older duplicated implementation, whose
    shared math primitives are embedded in namespace `Hashprice.Legacy`).

  JavaScript `number` arithmetic is embedded as real arithmetic; the
  `Date` values manipulated by the code (year / month-index / day-of-month
  triples, with `setMonth` overflow normalization) are embedded as the
  `JSDate` structure below.  The embedding of `setMonth` is faithful for
  day-of-month values up to 31, which covers every date the program can
  construct.
-/

namespace Hashprice

/-- Calendar date as the JavaScript code observes it: `getFullYear`,
`getMonth` (0-based month index) and `getDate` (1-based day of month). -/
structure JSDate where
  y : ℕ
  m : ℕ
  d : ℕ
deriving DecidableEq, Repr

/-- Gregorian leap-year rule used by JavaScript `Date`. -/
def isLeap (y : ℕ) : Bool :=
  (y % 4 == 0 && y % 100 != 0) || (y % 400 == 0)

/-- Number of days in month `m` (0-based) of year `y`; this is what
`new Date(y, m + 1, 0).getDate()` returns. -/
def daysInMonthYM (y m : ℕ) : ℕ :=
  match m with
  | 1 => if isLeap y then 29 else 28
  | 3 => 30
  | 5 => 30
  | 8 => 30
  | 10 => 30
  | _ => 31

/-- Embedding of the helper `addMonths(date, m)`: copy the date and call
`setMonth(getMonth() + m)`.  JavaScript first moves to the target month
keeping the day-of-month, then normalizes an overflowing day into the
following month; a single normalization step is exact for `d ≤ 31`. -/
def addMonthsJS (date : JSDate) (t : ℕ) : JSDate :=
  let total := date.y * 12 + date.m + t
  if date.d ≤ daysInMonthYM (total / 12) (total % 12) then
    ⟨total / 12, total % 12, date.d⟩
  else
    ⟨(total + 1) / 12, (total + 1) % 12, date.d - daysInMonthYM (total / 12) (total % 12)⟩

/-- Embedding of the helper `daysInMonth(date)`. -/
def daysInMonthOf (dt : JSDate) : ℕ := daysInMonthYM dt.y dt.m

/-- JavaScript `Date` comparison `a < b` (timestamp order), which for
normalized dates is lexicographic on (year, month, day). -/
def jsDateLt (a b : JSDate) : Bool :=
  a.y < b.y || (a.y == b.y && (a.m < b.m || (a.m == b.m && a.d < b.d)))

/-- The condition guarding the tax-credit branch of the cash-flow loops:
the row date has `getFullYear() === 2026 && getMonth() === 3`
(the fields of `new Date(2026, 3, 1)`, i.e. April 2026). -/
def isApril2026 (dt : JSDate) : Bool :=
  dt.y == 2026 && dt.m == 3

/-- A `JSDate` that JavaScript could actually hold after normalization:
month index below 12 and a day that exists in that month. -/
def validJSDate (x : JSDate) : Prop :=
  x.m ≤ 11 ∧ 1 ≤ x.d ∧ x.d ≤ daysInMonthYM x.y x.m

instance (x : JSDate) : Decidable (validJSDate x) := by
  unfold validJSDate; infer_instance

noncomputable section

-- ===== Shared constants of src/src/App.tsx =====

/-- Scaling constant for `HP_USD` (`K = 20_116_568`). -/
def K : ℝ := 20116568
/-- Fixed horizon in months. -/
def MONTHS : ℕ := 36
def GP : ℝ := 0.039
def DP : ℝ := 0.07
def GD : ℝ := 0.034
def DD : ℝ := 0.06
def GF : ℝ := -0.045
def DF : ℝ := 0.06
def P0_PARAM : ℝ := 110000
def D0_PARAM : ℝ := 129.7e12
def E0_PARAM : ℝ := 28
def EEND_PARAM : ℝ := 16
def KE_PARAM : ℝ := 0.03
/-- Premium decay rate of the Energy tab (`/mo`). -/
def KP_ENERGY_FIXED : ℝ := 0.06
/-- Premium decay rate of the Protocol/Market tab (`/mo`). -/
def KP_MARKET_FIXED : ℝ := 0.09
def PF0_PARAM : ℝ := 0.263
def CE_PARAM : ℝ := 0.05

-- ===== Math helpers of src/src/App.tsx =====

/-- `hashpriceUSD(R, F, P, D) = K * (R + F) * P / D`. -/
def hashpriceUSD (R F P D : ℝ) : ℝ := K * (R + F) * P / D

/-- `energyFloorUSDPerTHDay(e, ce) = 0.024 * e * ce`. -/
def energyFloorUSDPerTHDay (e ce : ℝ) : ℝ := 0.024 * e * ce

/-- `effectiveHP(floorHP, premium, additive) = floorHP * (1 + premium) + additive`. -/
def effectiveHP (floorHP premium additive : ℝ) : ℝ :=
  floorHP * (1 + premium) + additive

/-- `monthlyRevenue(HPusdPerTHDay, thps, days) = HPusdPerTHDay * thps * days`. -/
def monthlyRevenue (HPusdPerTHDay thps days : ℝ) : ℝ :=
  HPusdPerTHDay * thps * days

/-- `EHP_usd_per_kWh(HPusdPerTHDay, e) = HPusdPerTHDay / (0.024 * e)`. -/
def EHP_usd_per_kWh (HPusdPerTHDay e : ℝ) : ℝ :=
  HPusdPerTHDay / (0.024 * e)

/-- `gompertz(t, x0, g, d) = x0 * exp((g / d) * (1 - exp(-d * t)))`. -/
def gompertz (t x0 g d : ℝ) : ℝ :=
  x0 * Real.exp ((g / d) * (1 - Real.exp (-d * t)))

/-- `efficiencyPath(t, e0, eEnd, k) = eEnd + (e0 - eEnd) * exp(-k * t)`. -/
def efficiencyPath (t e0 eEnd k : ℝ) : ℝ :=
  eEnd + (e0 - eEnd) * Real.exp (-k * t)

/-- `premiumPath(t, pf0, k) = pf0 * exp(-k * t)`. -/
def premiumPath (t pf0 k : ℝ) : ℝ := pf0 * Real.exp (-k * t)

/-- `subsidyForDate(d) = d < new Date(2028, 3, 1) ? 3.125 : 1.575`. -/
def subsidyForDate (dt : JSDate) : ℝ :=
  if jsDateLt dt ⟨2028, 3, 1⟩ then 3.125 else 1.575

-- ===== Older duplicated implementation (src/unnamed/part_002) =====

namespace Legacy

/-- Scaling constant of the older file (`K = 20_116_568`). -/
def K : ℝ := 20116568

/-- Older copy of `hashpriceUSD`. -/
def hashpriceUSD (R F P D : ℝ) : ℝ := K * (R + F) * P / D

/-- Older copy of `energyFloorUSDPerTHDay`. -/
def energyFloorUSDPerTHDay (e ce : ℝ) : ℝ := 0.024 * e * ce

/-- Older copy of `effectiveHP`. -/
def effectiveHP (floorHP premium additive : ℝ) : ℝ :=
  floorHP * (1 + premium) + additive

/-- Older copy of `monthlyRevenue`. -/
def monthlyRevenue (HPusdPerTHDay thps days : ℝ) : ℝ :=
  HPusdPerTHDay * thps * days

/-- Older copy of `EHP_usd_per_kWh`. -/
def EHP_usd_per_kWh (HPusdPerTHDay e : ℝ) : ℝ :=
  HPusdPerTHDay / (0.024 * e)

/-- Older copy of `gompertz`. -/
def gompertz (t x0 g d : ℝ) : ℝ :=
  x0 * Real.exp ((g / d) * (1 - Real.exp (-d * t)))

/-- Older copy of `efficiencyPath`. -/
def efficiencyPath (t e0 eEnd k : ℝ) : ℝ :=
  eEnd + (e0 - eEnd) * Real.exp (-k * t)

/-- Older copy of `premiumPath`. -/
def premiumPath (t pf0 k : ℝ) : ℝ := pf0 * Real.exp (-k * t)

/-- Older copy of `subsidyForDate`. -/
def subsidyForDate (dt : JSDate) : ℝ :=
  if jsDateLt dt ⟨2028, 3, 1⟩ then 3.125 else 1.575

/-- Default premium decay rate of the older file (`KP_PARAM`), used as the
initial value of the user-editable `k_p` input of both of its panels. -/
def KP_PARAM : ℝ := 0.08

end Legacy

-- ===== EnergyAdjustedPanel (src/src/App.tsx) =====

/-- Inputs of `EnergyAdjustedPanel`: the captured `startDate` together with
the widget-state scalars of the panel. -/
structure EParams where
  start : JSDate
  useSchedule : Bool
  thps : ℝ
  ce : ℝ
  premium0 : ℝ
  addDelta : ℝ
  qty : ℝ
  unitCost : ℝ
  minerKW : ℝ
  hostingRate : ℝ
  setupPerMiner : ℝ
  taxPct : ℝ
  poolFee : ℝ
  uptime : ℝ
  salvagePct : ℝ

/-- Calendar date of row `t`: `addMonths(startDate, t)`. -/
def dateOf (p : EParams) (t : ℕ) : JSDate := addMonthsJS p.start t

/-- `dim`, the days-in-month of row `t`. -/
def dimOf (p : EParams) (t : ℕ) : ℕ := daysInMonthOf (dateOf p t)

/-- Row efficiency `e`: the schedule `efficiencyPath(t, E0, EEND, KE)` when the
toggle is on, else the fixed `E0_PARAM`. -/
def eOf (p : EParams) (t : ℕ) : ℝ :=
  if p.useSchedule then efficiencyPath t E0_PARAM EEND_PARAM KE_PARAM else E0_PARAM

/-- Row floor: `energyFloorUSDPerTHDay(e, ce)`. -/
def floorOf (p : EParams) (t : ℕ) : ℝ := energyFloorUSDPerTHDay (eOf p t) p.ce

/-- Row premium: `premiumPath(t, premium0, KP_ENERGY_FIXED)` (the Energy tab
passes the fixed energy-model decay rate). -/
def premOf (p : EParams) (t : ℕ) : ℝ := premiumPath t p.premium0 KP_ENERGY_FIXED

/-- Row effective hashprice: `effectiveHP(floor, prem, addDelta)`. -/
def hpOf (p : EParams) (t : ℕ) : ℝ := effectiveHP (floorOf p t) (premOf p t) p.addDelta

/-- Row gross revenue: `monthlyRevenue(hp, thps * qty, dim) * uptime`. -/
def grossOf (p : EParams) (t : ℕ) : ℝ :=
  monthlyRevenue (hpOf p t) (p.thps * p.qty) (dimOf p t : ℝ) * p.uptime

/-- Row power cost of the energy panel:
`minerKW * hostingRate * qty * 24 * dim * uptime`. -/
def powerOf (p : EParams) (t : ℕ) : ℝ :=
  p.minerKW * p.hostingRate * p.qty * 24 * (dimOf p t : ℝ) * p.uptime

/-- Row net cash flow: `gross * (1 - poolFee) - power`. -/
def netOf (p : EParams) (t : ℕ) : ℝ :=
  grossOf p t * (1 - p.poolFee) - powerOf p t

/-- One element of the `series` array built by `EnergyAdjustedPanel`. -/
structure ERow where
  t : ℕ
  date : JSDate
  e : ℝ
  floor : ℝ
  prem : ℝ
  hp : ℝ
  gross : ℝ
  power : ℝ
  net : ℝ
  ehp : ℝ

/-- Row `t` of the energy panel series. -/
def rowE (p : EParams) (t : ℕ) : ERow :=
  ⟨t, dateOf p t, eOf p t, floorOf p t, premOf p t, hpOf p t,
    grossOf p t, powerOf p t, netOf p t, EHP_usd_per_kWh (hpOf p t) (eOf p t)⟩

/-- The full 37-element series `Array.from({length: MONTHS + 1}, ...)`. -/
def seriesE (p : EParams) : List ERow := (List.range (MONTHS + 1)).map (rowE p)

/-- `securityDeposit = minerKW * hostingRate * qty * 24 * 31 * 2`. -/
def securityDepositE (p : EParams) : ℝ :=
  p.minerKW * p.hostingRate * p.qty * 24 * 31 * 2

/-- `initialCost = qty * unitCost + securityDeposit + qty * setupPerMiner`. -/
def initialCostE (p : EParams) : ℝ :=
  p.qty * p.unitCost + securityDepositE p + p.qty * p.setupPerMiner

/-- `taxCredit = taxPct * (qty * unitCost)`. -/
def taxCreditE (p : EParams) : ℝ := p.taxPct * (p.qty * p.unitCost)

/-- `salvage = salvagePct * qty * unitCost`. -/
def salvageE (p : EParams) : ℝ := p.salvagePct * p.qty * p.unitCost

/-- Guard of the tax-credit branch for row `t` of the energy panel. -/
def isTaxRowE (p : EParams) (t : ℕ) : Bool := isApril2026 (dateOf p t)

/-- The cash-flow loop shared by both panels: starting from `init`, each row
`t` adds the tax credit `tc` when its date matches April 2026, adds the
monthly net `net t`, adds the terminal amount `term` when `t === MONTHS`,
and records the running total as the cumulative profit of row `t`. -/
def scanProfit (init tc term : ℝ) (isTax : ℕ → Bool) (net : ℕ → ℝ) : ℕ → ℝ
  | 0 =>
      init + (if isTax 0 then tc else 0) + net 0
        + (if (0 : ℕ) = MONTHS then term else 0)
  | Nat.succ t =>
      scanProfit init tc term isTax net t + (if isTax (t + 1) then tc else 0)
        + net (t + 1) + (if t + 1 = MONTHS then term else 0)

/-- Cumulative profit recorded at row `t` of the energy panel; the terminal
row additionally receives salvage plus the returned security deposit. -/
def profitE (p : EParams) : ℕ → ℝ :=
  scanProfit (-initialCostE p) (taxCreditE p) (salvageE p + securityDepositE p)
    (isTaxRowE p) (netOf p)

-- ===== ProtocolEquilibriumPanel (src/src/App.tsx) =====

/-- Inputs of `ProtocolEquilibriumPanel`: the captured `startDate` together
with the widget-state scalars of the panel (note: it has no uptime input). -/
structure PParams where
  start : JSDate
  pf0 : ℝ
  thps : ℝ
  qty : ℝ
  unitCost : ℝ
  minerKW : ℝ
  hostingRate : ℝ
  setupPerMiner : ℝ
  taxPct : ℝ
  poolFee : ℝ
  salvagePct : ℝ

/-- Calendar date of row `t` of the protocol panel. -/
def dateP (q : PParams) (t : ℕ) : JSDate := addMonthsJS q.start t

/-- Days-in-month of row `t` of the protocol panel. -/
def dimP (q : PParams) (t : ℕ) : ℕ := daysInMonthOf (dateP q t)

/-- `P = gompertz(t, P0_PARAM, GP, DP)`. -/
def priceOf (t : ℕ) : ℝ := gompertz t P0_PARAM GP DP

/-- `D = gompertz(t, D0_PARAM, GD, DD)`. -/
def diffOf (t : ℕ) : ℝ := gompertz t D0_PARAM GD DD

/-- `FeesBTCperDay = gompertz(t, 3.87, GF, DF)`. -/
def feesOf (t : ℕ) : ℝ := gompertz t 3.87 GF DF

/-- `F = FeesBTCperDay / 144`. -/
def feePerBlockOf (t : ℕ) : ℝ := feesOf t / 144

/-- `R = subsidyForDate(date)`. -/
def subsidyOf (q : PParams) (t : ℕ) : ℝ := subsidyForDate (dateP q t)

/-- `hpProtocol = hashpriceUSD(R, F, P, D)`. -/
def hpProtocolOf (q : PParams) (t : ℕ) : ℝ :=
  hashpriceUSD (subsidyOf q t) (feePerBlockOf t) (priceOf t) (diffOf t)

/-- Row premium of the protocol panel:
`premiumPath(t, pf0, KP_MARKET_FIXED)` (the fixed market-model decay rate). -/
def premPOf (q : PParams) (t : ℕ) : ℝ := premiumPath t q.pf0 KP_MARKET_FIXED

/-- Row effective hashprice: `effectiveHP(hpProtocol, prem, 0)`. -/
def hpPOf (q : PParams) (t : ℕ) : ℝ := effectiveHP (hpProtocolOf q t) (premPOf q t) 0

/-- `revGross = monthlyRevenue(hp, thps * qty, dim)`. -/
def revGrossP (q : PParams) (t : ℕ) : ℝ :=
  monthlyRevenue (hpPOf q t) (q.thps * q.qty) (dimP q t : ℝ)

/-- Row power cost of the protocol panel:
`minerKW * hostingRate * qty * 24 * dim` (no uptime factor). -/
def powerP (q : PParams) (t : ℕ) : ℝ :=
  q.minerKW * q.hostingRate * q.qty * 24 * (dimP q t : ℝ)

/-- Row net cash flow: `revGross * (1 - poolFee) - power`. -/
def revP (q : PParams) (t : ℕ) : ℝ := revGrossP q t * (1 - q.poolFee) - powerP q t

/-- One element of the `series` array built by `ProtocolEquilibriumPanel`. -/
structure PRow where
  t : ℕ
  date : JSDate
  P : ℝ
  D : ℝ
  F : ℝ
  R : ℝ
  hpProtocol : ℝ
  prem : ℝ
  hp : ℝ
  rev : ℝ

/-- Row `t` of the protocol panel series. -/
def rowP (q : PParams) (t : ℕ) : PRow :=
  ⟨t, dateP q t, priceOf t, diffOf t, feePerBlockOf t, subsidyOf q t,
    hpProtocolOf q t, premPOf q t, hpPOf q t, revP q t⟩

/-- The full 37-element series of the protocol panel. -/
def seriesP (q : PParams) : List PRow := (List.range (MONTHS + 1)).map (rowP q)

/-- Up-front cost of the protocol panel (same formula, written inline in the
source). -/
def initialCostP (q : PParams) : ℝ :=
  q.qty * q.unitCost + q.minerKW * q.hostingRate * q.qty * 24 * 31 * 2
    + q.qty * q.setupPerMiner

/-- Tax credit of the protocol panel. -/
def taxCreditP (q : PParams) : ℝ := q.taxPct * (q.qty * q.unitCost)

/-- Salvage of the protocol panel. -/
def salvageP (q : PParams) : ℝ := q.salvagePct * q.qty * q.unitCost

/-- Guard of the tax-credit branch for row `t` of the protocol panel. -/
def isTaxRowP (q : PParams) (t : ℕ) : Bool := isApril2026 (dateP q t)

/-- Cumulative profit recorded at row `t` of the protocol panel; its terminal
row receives salvage only (the deposit is not returned in this panel). -/
def profitP (q : PParams) : ℕ → ℝ :=
  scanProfit (-initialCostP q) (taxCreditP q) (salvageP q) (isTaxRowP q) (revP q)

-- ===== FormulasCharts (src/src/App.tsx) =====

/-- Premium series of the `FormulasCharts` view: the source passes
`KP_MARKET_FIXED` for both of its effective-hashprice charts. -/
def premiumFC (t : ℕ) : ℝ := premiumPath t PF0_PARAM KP_MARKET_FIXED

/-- `hpEnergy = energyFloorUSDPerTHDay(e(t), CE_PARAM)` in `FormulasCharts`. -/
def hpEnergyFC (t : ℕ) : ℝ :=
  energyFloorUSDPerTHDay (efficiencyPath t E0_PARAM EEND_PARAM KE_PARAM) CE_PARAM

/-- `hpEnergyEff = hpEnergy * (1 + premium)` in `FormulasCharts`. -/
def hpEnergyEffFC (t : ℕ) : ℝ := hpEnergyFC t * (1 + premiumFC t)

-- ===== Concrete parameter assignments used for evaluation =====

/-- The default widget state of the energy panel, with a fixed (April 2025)
mount date standing for the captured `new Date()`. -/
def pDefault : EParams :=
  ⟨⟨2025, 3, 15⟩, true, 270, 0.05, 0.263, 0, 10, 8000, 3.5, 0.05, 25,
    0.21, 0.01, 0.99, 0.2⟩

/-- The default widget state of the protocol panel, with the same fixed
mount date. -/
def qDefault : PParams :=
  ⟨⟨2025, 3, 15⟩, 0.263, 270, 10, 8000, 3.5, 0.05, 25, 0.21, 0.02, 0.2⟩

end

-- ===== Helper lemmas =====

/-- Closed form of the cash-flow loop: the total recorded at row `t` is the
initial value, plus the tax credit once per matching row seen so far, plus
the partial sum of the monthly nets, plus the terminal amount when the final
row has been passed. -/
theorem scanProfit_eq (init tc term : ℝ) (isTax : ℕ → Bool) (net : ℕ → ℝ)
    (t : ℕ) :
    scanProfit init tc term isTax net t =
      init + tc * ((List.range (t + 1)).countP isTax : ℝ)
        + (Finset.range (t + 1)).sum net
        + (if MONTHS ≤ t then term else 0) := by
  induction t with
  | zero =>
      show init + (if isTax 0 then tc else 0) + net 0
          + (if (0 : ℕ) = MONTHS then term else 0) = _
      by_cases h : isTax 0 <;>
        simp [MONTHS, h, List.range_succ, List.countP_cons]
  | succ t ih =>
      have step : scanProfit init tc term isTax net (t + 1)
          = scanProfit init tc term isTax net t + (if isTax (t + 1) then tc else 0)
            + net (t + 1) + (if t + 1 = MONTHS then term else 0) := rfl
      have hsplit : (if MONTHS ≤ t then term else 0)
            + (if t + 1 = MONTHS then term else 0)
          = (if MONTHS ≤ t + 1 then term else 0) := by
        by_cases hA : MONTHS ≤ t
        · have h1 : t + 1 ≠ MONTHS := by simp [MONTHS] at hA ⊢; omega
          have h2 : MONTHS ≤ t + 1 := by simp [MONTHS] at hA ⊢; omega
          simp [hA, h1, h2]
        · by_cases hB : t + 1 = MONTHS
          · simp [hA, hB]
          · have h2 : ¬ MONTHS ≤ t + 1 := by
              simp [MONTHS] at hA hB ⊢; omega
            simp [hA, hB, h2]
      rw [step, ih]
      have hrange : List.range (t + 1 + 1) = List.range (t + 1) ++ [t + 1] :=
        List.range_succ (t + 1)
      have hone : List.countP isTax [t + 1]
          = if isTax (t + 1) then 1 else 0 := by
        simp [List.countP_cons]
      rw [hrange, List.countP_append, Finset.sum_range_succ net (t + 1),
        ← hsplit, hone]
      by_cases h : isTax (t + 1)
      · rw [if_pos h, if_pos h]
        push_cast
        ring
      · rw [if_neg h, if_neg h]
        push_cast
        ring

/-- A row of either panel dated in April 2026 pins down the month offset:
the start total-month count plus `t` equals the total-month count of
April 2026 (namely `2026 * 12 + 3`).  Valid for start days up to 31. -/
theorem april_unique_total {s : JSDate} {t : ℕ} (hd : s.d ≤ 31)
    (h : isApril2026 (addMonthsJS s t) = true) :
    s.y * 12 + s.m + t = 24315 := by
  simp only [addMonthsJS] at h
  split at h
  case isTrue hc =>
    simp only [isApril2026, Bool.and_eq_true, beq_iff_eq] at h
    omega
  case isFalse hc =>
    simp only [isApril2026, Bool.and_eq_true, beq_iff_eq] at h
    exfalso
    have hT : s.y * 12 + s.m + t = 24314 := by omega
    rw [hT] at hc
    have e1 : (24314 : ℕ) / 12 = 2026 := by norm_num
    have e2 : (24314 : ℕ) % 12 = 2 := by norm_num
    rw [e1, e2] at hc
    have e3 : daysInMonthYM 2026 2 = 31 := rfl
    rw [e3] at hc
    omega

/-- Adding zero months to a well-formed date is the identity (the `t = 0`
row of every series carries the start date itself). -/
theorem addMonthsJS_zero {x : JSDate} (h : validJSDate x) :
    addMonthsJS x 0 = x := by
  obtain ⟨hm, hd1, hd2⟩ := h
  rcases x with ⟨y, m, d⟩
  simp only at hm hd1 hd2
  have h1 : (y * 12 + m + 0) / 12 = y := by omega
  have h2 : (y * 12 + m + 0) % 12 = m := by omega
  simp only [addMonthsJS, h1, h2]
  rw [if_pos hd2]

/-- The head of the energy-panel series is row 0. -/
theorem seriesE_head (p : EParams) : (seriesE p).head? = some (rowE p 0) := by
  rw [seriesE, show MONTHS + 1 = 36 + 1 from rfl, List.range_succ_eq_map]
  rfl

/-- Equal energy-panel series force equal row-0 dates. -/
theorem seriesE_date_zero {p p' : EParams} (h : seriesE p = seriesE p') :
    addMonthsJS p.start 0 = addMonthsJS p'.start 0 := by
  have h0 : some (rowE p 0) = some (rowE p' 0) := by
    rw [← seriesE_head, ← seriesE_head, h]
  exact congrArg ERow.date (Option.some.inj h0)

-- ===== Claim theorems =====

/-- Claim C2 (amended): the computation never aborts — for every parameter
assignment, including ones with a zero or negative required-positive
quantity, both panels produce the full 37-row series; there is no
validation step in the code. -/
theorem series_always_complete :
    (∀ p : EParams, (seriesE p).length = 37)
    ∧ (∀ q : PParams, (seriesP q).length = 37) := by
  constructor
  · intro p; simp [seriesE, MONTHS]
  · intro q; simp [seriesP, MONTHS]

/-- Claim C2, counterexample to the claim as stated: with the structurally
required-positive per-unit hashrate set to zero, the run still produces all
37 rows instead of aborting before producing any row. -/
theorem series_complete_with_zero_hashrate :
    (seriesE { pDefault with thps := 0 }).length = 37 := by
  simp [seriesE, MONTHS]

/-- Claim C4: the energy panel bills monthly power cost as
`minerKW * hostingRate * qty * 24 * daysInMonth * uptime`, while the
protocol panel bills `minerKW * hostingRate * qty * 24 * daysInMonth` with
no uptime factor (its parameter set has no uptime input at all); the
asymmetry holds at every month index. -/
theorem power_cost_uptime_asymmetry (p : EParams) (q : PParams) (t : ℕ) :
    powerOf p t
      = p.minerKW * p.hostingRate * p.qty * 24 * (dimOf p t : ℝ) * p.uptime
    ∧ powerP q t
      = q.minerKW * q.hostingRate * q.qty * 24 * (dimP q t : ℝ) :=
  ⟨rfl, rfl⟩

/-- Claim C5 (amended): in the two dashboard panels the premium decay rate
passed to `premiumPath` is the fixed constant of the active floor model —
`KP_ENERGY_FIXED = 0.06` in the energy panel and `KP_MARKET_FIXED = 0.09`
in the protocol panel — and the two constants are distinct.  (The claim as
stated fails elsewhere: the `FormulasCharts` view computes the energy-floor
effective hashprice with the market rate, and the older duplicated
implementation passes a user-editable rate to both panels.) -/
theorem panel_premium_rates_fixed_and_distinct (p : EParams) (q : PParams)
    (t : ℕ) :
    premOf p t = premiumPath t p.premium0 KP_ENERGY_FIXED
    ∧ premPOf q t = premiumPath t q.pf0 KP_MARKET_FIXED
    ∧ KP_ENERGY_FIXED ≠ KP_MARKET_FIXED := by
  refine ⟨rfl, rfl, ?_⟩
  rw [KP_ENERGY_FIXED, KP_MARKET_FIXED]
  norm_num

/-- Claim C5, counterexample to the claim as stated: the `FormulasCharts`
view of the current implementation computes its energy-floor effective
hashprice (here at month 1) by passing `KP_MARKET_FIXED` to `premiumPath`,
which differs from the energy-model constant `KP_ENERGY_FIXED`. -/
theorem formulas_energy_premium_uses_market_rate :
    hpEnergyEffFC 1
      = hpEnergyFC 1 * (1 + premiumPath ((1 : ℕ) : ℝ) PF0_PARAM KP_MARKET_FIXED)
    ∧ KP_MARKET_FIXED ≠ KP_ENERGY_FIXED := by
  refine ⟨rfl, ?_⟩
  rw [KP_ENERGY_FIXED, KP_MARKET_FIXED]
  norm_num

/-- Claim C6: the cash-flow scan starts from the negative of
`qty * unitCost + securityDeposit + qty * setupPerMiner`, where the deposit
is the fixed two-month 31-day estimate
`minerKW * hostingRate * qty * 24 * 31 * 2`, independent of the start date
and hence of the actual calendar month lengths of the run; in the concrete
scenario (quantity 10, unit cost 8000, power 3.5 kW, hosting 0.05, setup
25) the up-front cost is `10 * 8000 + 3.5 * 0.05 * 10 * 24 * 31 * 2 + 10 * 25`. -/
theorem upfront_cost_initialization :
    (∀ p : EParams,
      profitE p 0
        = -(p.qty * p.unitCost
            + p.minerKW * p.hostingRate * p.qty * 24 * 31 * 2
            + p.qty * p.setupPerMiner)
          + (if isTaxRowE p 0 then taxCreditE p else 0) + netOf p 0)
    ∧ (∀ (p : EParams) (s s' : JSDate),
        initialCostE { p with start := s } = initialCostE { p with start := s' })
    ∧ initialCostE pDefault
        = 10 * 8000 + 3.5 * 0.05 * 10 * 24 * 31 * 2 + 10 * 25 := by
  refine ⟨?_, ?_, ?_⟩
  · intro p
    show -initialCostE p + (if isTaxRowE p 0 then taxCreditE p else 0)
        + netOf p 0 + (if (0 : ℕ) = MONTHS then salvageE p + securityDepositE p else 0)
      = _
    have h0 : (0 : ℕ) ≠ MONTHS := by decide
    rw [if_neg h0, initialCostE, securityDepositE]
    ring
  · intro p s s'
    rfl
  · norm_num [initialCostE, securityDepositE, pDefault]

/-- Claim C7: the bounded-growth curve evaluated at month 0 returns the
initial anchor exactly: `gompertz 0 x0 g d = x0` for any rates with `d`
nonzero. -/
theorem gompertz_at_zero (x0 g d : ℝ) (hd : d ≠ 0) :
    gompertz 0 x0 g d = x0 := by
  simp [gompertz]

/-- Claim C7, witness at `x0 = 110000`, `(g, d) = (0.039, 0.07)`. -/
theorem gompertz_at_zero_app :
    (0.07 : ℝ) ≠ 0 ∧ gompertz 0 110000 0.039 0.07 = 110000 :=
  ⟨by norm_num, gompertz_at_zero 110000 0.039 0.07 (by norm_num)⟩

/-- Claim C9: the derived effective cost of power inverts the energy floor
exactly: for positive efficiency and energy price,
`EHP_usd_per_kWh (energyFloorUSDPerTHDay e ce) e = ce`. -/
theorem ehp_inverts_energy_floor (e ce : ℝ) (he : 0 < e) (hce : 0 < ce) :
    EHP_usd_per_kWh (energyFloorUSDPerTHDay e ce) e = ce := by
  have hne : e ≠ 0 := ne_of_gt he
  rw [EHP_usd_per_kWh, energyFloorUSDPerTHDay]
  field_simp

/-- Claim C9, witness at `e = 17` J/TH and `ce = 0.05` $/kWh. -/
theorem ehp_inverts_energy_floor_app :
    (0 : ℝ) < 17 ∧ (0 : ℝ) < 0.05
    ∧ EHP_usd_per_kWh (energyFloorUSDPerTHDay 17 0.05) 17 = 0.05 :=
  ⟨by norm_num, by norm_num,
    ehp_inverts_energy_floor 17 0.05 (by norm_num) (by norm_num)⟩

/-- Claim C10: the shared math primitives of the two duplicated
implementations are extensionally equal, the scaling constant is the same
`20_116_568` in both, and the subsidy schedule steps from 3.125 to 1.575 at
April 1, 2028 (month index 3). -/
theorem duplicated_primitives_agree :
    K = Legacy.K ∧ K = 20116568
    ∧ (∀ R F P D : ℝ, hashpriceUSD R F P D = Legacy.hashpriceUSD R F P D)
    ∧ (∀ e ce : ℝ,
        energyFloorUSDPerTHDay e ce = Legacy.energyFloorUSDPerTHDay e ce)
    ∧ (∀ f pr a : ℝ, effectiveHP f pr a = Legacy.effectiveHP f pr a)
    ∧ (∀ hp th dys : ℝ, monthlyRevenue hp th dys = Legacy.monthlyRevenue hp th dys)
    ∧ (∀ hp e : ℝ, EHP_usd_per_kWh hp e = Legacy.EHP_usd_per_kWh hp e)
    ∧ (∀ t x0 g d : ℝ, gompertz t x0 g d = Legacy.gompertz t x0 g d)
    ∧ (∀ t e0 eEnd k : ℝ,
        efficiencyPath t e0 eEnd k = Legacy.efficiencyPath t e0 eEnd k)
    ∧ (∀ t pf0 k : ℝ, premiumPath t pf0 k = Legacy.premiumPath t pf0 k)
    ∧ (∀ dt : JSDate, subsidyForDate dt = Legacy.subsidyForDate dt)
    ∧ subsidyForDate ⟨2028, 2, 31⟩ = 3.125
    ∧ subsidyForDate ⟨2028, 3, 1⟩ = 1.575 := by
  refine ⟨rfl, rfl, fun _ _ _ _ => rfl, fun _ _ => rfl, fun _ _ _ => rfl,
    fun _ _ _ => rfl, fun _ _ => rfl, fun _ _ _ _ => rfl, fun _ _ _ _ => rfl,
    fun _ _ _ => rfl, fun _ => rfl, ?_, ?_⟩
  · have hlt : jsDateLt ⟨2028, 2, 31⟩ ⟨2028, 3, 1⟩ = true := by decide
    rw [subsidyForDate, if_pos hlt]
  · have hlt : jsDateLt ⟨2028, 3, 1⟩ ⟨2028, 3, 1⟩ = false := by decide
    rw [subsidyForDate, if_neg]
    rw [hlt]
    exact Bool.false_ne_true

/-- Claim C1 (amended): across the 37-row scan the cumulative value recorded
at row `t` equals the negated up-front cost, plus the tax credit once for
each row up to `t` whose calendar date falls in April 2026 — of which there
is at most one in the whole run, and possibly none — plus the running sum of
the monthly nets, plus (exactly at the final row `t = 36`) salvage and the
returned security deposit.  In particular neither one-time event ever
changes the value recorded at an earlier row. -/
theorem taxCredit_salvage_characterization (p : EParams) (t : ℕ)
    (hd : p.start.d ≤ 31) (ht : t ≤ MONTHS) :
    profitE p t
      = -initialCostE p
        + taxCreditE p * ((List.range (t + 1)).countP (isTaxRowE p) : ℝ)
        + (Finset.range (t + 1)).sum (netOf p)
        + (if t = MONTHS then salvageE p + securityDepositE p else 0)
    ∧ (∀ t1 t2 : ℕ, isTaxRowE p t1 = true → isTaxRowE p t2 = true → t1 = t2) := by
  constructor
  · rw [profitE, scanProfit_eq]
    by_cases h36 : t = MONTHS
    · subst h36; simp
    · have hM : MONTHS = 36 := rfl
      rw [hM] at ht h36
      have hle : ¬ MONTHS ≤ t := by rw [hM]; omega
      rw [if_neg hle, if_neg (by rw [hM]; omega : ¬ t = MONTHS)]
  · intro t1 t2 h1 h2
    have e1 := april_unique_total hd h1
    have e2 := april_unique_total hd h2
    omega

/-- Claim C1, witness: the amended characterization instantiated at the
default parameters with an April 2025 start date, at the final row. -/
theorem taxCredit_salvage_characterization_app :
    (profitE pDefault 36
      = -initialCostE pDefault
        + taxCreditE pDefault * ((List.range 37).countP (isTaxRowE pDefault) : ℝ)
        + (Finset.range 37).sum (netOf pDefault)
        + (if (36 : ℕ) = MONTHS then salvageE pDefault + securityDepositE pDefault
            else 0))
    ∧ (∀ t1 t2 : ℕ,
        isTaxRowE pDefault t1 = true → isTaxRowE pDefault t2 = true → t1 = t2) :=
  taxCredit_salvage_characterization pDefault 36 (by decide) (by decide)

/-- Claim C1, counterexample to the claim as stated: a run whose captured
start date is June 1, 2026 has no row dated April 2026 at all, so the
tax-credit inflow is added at zero rows, not at exactly one row. -/
theorem taxCredit_zero_rows_for_late_start :
    ((List.range 37).countP
      (isTaxRowE { pDefault with start := ⟨2026, 5, 1⟩ })) ≠ 1 := by
  decide

/-- Claim C3 (amended): the series is a deterministic pure function of the
captured mount date and the widget parameters — two runs over the same
parameters agree exactly when their captured clock readings agree.  The
start date is read from the live clock at mount (`new Date()`), not
supplied as an input parameter, so the output genuinely depends on the
clock reading. -/
theorem series_determined_by_clock_and_params (p : EParams) (n n' : JSDate)
    (hn : validJSDate n) (hn' : validJSDate n') :
    seriesE { p with start := n } = seriesE { p with start := n' } ↔ n = n' := by
  constructor
  · intro h
    have h1 : addMonthsJS n 0 = addMonthsJS n' 0 := seriesE_date_zero h
    rwa [addMonthsJS_zero hn, addMonthsJS_zero hn'] at h1
  · intro h
    rw [h]

/-- Claim C3, witness: the determinism equivalence instantiated at the
default parameters and two distinct concrete mount dates. -/
theorem series_determined_by_clock_and_params_app :
    seriesE { pDefault with start := ⟨2026, 0, 1⟩ }
        = seriesE { pDefault with start := ⟨2026, 1, 1⟩ }
      ↔ (⟨2026, 0, 1⟩ : JSDate) = ⟨2026, 1, 1⟩ :=
  series_determined_by_clock_and_params pDefault ⟨2026, 0, 1⟩ ⟨2026, 1, 1⟩
    (by decide) (by decide)

/-- Claim C3, counterexample to the claim as stated: two runs with
identical widget parameters but different live-clock readings at mount
(January versus February 2026) produce different row sequences, exhibiting
the hidden clock dependence. -/
theorem series_differs_with_clock :
    seriesE { pDefault with start := ⟨2026, 0, 1⟩ }
      ≠ seriesE { pDefault with start := ⟨2026, 1, 1⟩ } := by
  intro h
  have h1 : addMonthsJS (⟨2026, 0, 1⟩ : JSDate) 0 = addMonthsJS ⟨2026, 1, 1⟩ 0 :=
    seriesE_date_zero h
  rw [addMonthsJS_zero (by decide), addMonthsJS_zero (by decide)] at h1
  exact absurd h1 (by decide)

/-- Claim C8: the efficiency path starts exactly at `e0`, stays strictly
between `eEnd` and `e0` for every positive time, approaches `eEnd` strictly
monotonically (the absolute distance to `eEnd` is strictly decreasing), and
at `t = 50` with `k = 0.5` the distance to `eEnd` is below `1e-9` relative
to the initial gap. -/
theorem efficiencyPath_boundary_and_convergence (e0 eEnd k : ℝ)
    (hne : e0 ≠ eEnd) (hk : 0 < k) :
    efficiencyPath 0 e0 eEnd k = e0
    ∧ (∀ t : ℝ, 0 < t →
        efficiencyPath t e0 eEnd k ∈ Set.Ioo (min e0 eEnd) (max e0 eEnd))
    ∧ StrictAnti (fun t : ℝ => |efficiencyPath t e0 eEnd k - eEnd|)
    ∧ |efficiencyPath 50 e0 eEnd (1 / 2) - eEnd| < 1e-9 * |e0 - eEnd| := by
  have habs : ∀ kk t : ℝ,
      |efficiencyPath t e0 eEnd kk - eEnd| = |e0 - eEnd| * Real.exp (-kk * t) := by
    intro kk t
    rw [efficiencyPath,
      show eEnd + (e0 - eEnd) * Real.exp (-kk * t) - eEnd
        = (e0 - eEnd) * Real.exp (-kk * t) by ring,
      abs_mul, abs_of_pos (Real.exp_pos _)]
  have habs0 : 0 < |e0 - eEnd| := abs_pos.mpr (sub_ne_zero.mpr hne)
  refine ⟨?_, ?_, ?_, ?_⟩
  · rw [efficiencyPath]
    norm_num
  · intro t ht
    have hkt : (0 : ℝ) < k * t := mul_pos hk ht
    have hE1 : Real.exp (-k * t) < 1 := by
      apply Real.exp_lt_one_iff.mpr
      nlinarith
    have hE0 : 0 < Real.exp (-k * t) := Real.exp_pos _
    rw [Set.mem_Ioo, efficiencyPath]
    rcases lt_or_gt_of_ne hne with hlt | hgt
    · rw [min_eq_left hlt.le, max_eq_right hlt.le]
      constructor
      · nlinarith [mul_pos (sub_pos.mpr hlt) (sub_pos.mpr hE1)]
      · nlinarith [mul_neg_of_neg_of_pos (sub_neg.mpr hlt) hE0]
    · rw [min_eq_right hgt.le, max_eq_left hgt.le]
      constructor
      · nlinarith [mul_pos (sub_pos.mpr hgt) hE0]
      · nlinarith [mul_pos (sub_pos.mpr hgt) (sub_pos.mpr hE1)]
  · intro a b hab
    simp only [habs]
    have hlt1 : Real.exp (-k * b) < Real.exp (-k * a) := by
      apply Real.exp_lt_exp.mpr
      nlinarith
    exact mul_lt_mul_of_pos_left hlt1 habs0
  · rw [habs (1 / 2) 50, show -(1 / 2 : ℝ) * 50 = -25 by norm_num]
    have h1 : (1e9 : ℝ) < Real.exp 25 := by
      have h2 : (2.7182818283 : ℝ) ^ (25 : ℕ) ≤ Real.exp 1 ^ (25 : ℕ) :=
        pow_le_pow_left (by norm_num) Real.exp_one_gt_d9.le 25
      have h3 : Real.exp 1 ^ (25 : ℕ) = Real.exp 25 := by
        rw [← Real.exp_nat_mul]
        norm_num
      calc (1e9 : ℝ) < 2.7182818283 ^ (25 : ℕ) := by norm_num
        _ ≤ Real.exp 1 ^ (25 : ℕ) := h2
        _ = Real.exp 25 := h3
    have hexp : Real.exp (-25 : ℝ) < 1e-9 := by
      rw [Real.exp_neg]
      calc (Real.exp 25)⁻¹ < (1e9 : ℝ)⁻¹ := by
            apply inv_lt_inv_of_lt (by norm_num) h1
        _ = 1e-9 := by norm_num
    nlinarith [mul_lt_mul_of_pos_left hexp habs0]

/-- Claim C8, witness at the fixed schedule of the app: `e0 = 28` J/TH,
`eEnd = 16` J/TH, `k = 0.03` per month. -/
theorem efficiencyPath_boundary_and_convergence_app :
    efficiencyPath 0 28 16 0.03 = 28
    ∧ (∀ t : ℝ, 0 < t →
        efficiencyPath t 28 16 0.03 ∈ Set.Ioo (min 28 16 : ℝ) (max 28 16 : ℝ))
    ∧ StrictAnti (fun t : ℝ => |efficiencyPath t 28 16 0.03 - 16|)
    ∧ |efficiencyPath 50 28 16 (1 / 2) - 16| < 1e-9 * |28 - 16| :=
  efficiencyPath_boundary_and_convergence 28 16 0.03 (by norm_num) (by norm_num)

end Hashprice
